import Mathlib

/-!
Shallow embedding of the core of the `personal-finance-tracker` Flask
application: the transaction aggregation engine (`app/routes.py`
`dashboard`, `app/models.py` `User.get_balance`) and the receipt asset
manager (`app/utils.py`, plus the receipt handling in
`edit_transaction` / `delete_transaction` / `download_receipt` of
`app/routes.py`).

Monetary amounts are modelled as rationals (the source stores them as
SQL floats and only ever adds them).  The SQLAlchemy store is modelled
as a list of rows; `filter_by(...).first()` becomes `List.find?`, SQL
`SUM` with `or 0` becomes an `Option`-valued sum defaulted to `0`, and
the filesystem is an association list from paths to file data.
Nondeterministic inputs of the source (the `uuid4` hex fragment, an
arbitrary thumbnailing failure) are explicit parameters.
-/

namespace FinanceTracker

/-- Transaction type column: `transaction_type` ∈ {income, expense}. -/
inductive TxType where
  | income
  | expense
deriving DecidableEq, Repr

/-- An effective calendar date (`Transaction.date`), as stored on the row.
SQL `extract('month', d)` / `extract('year', d)` read the fields. -/
structure TxDate where
  year : Nat
  month : Nat
  day : Nat
deriving DecidableEq, Repr

/-- A row of the `Transaction` table.  `created_at` is the server-assigned
creation timestamp, distinct from the effective `date`. -/
structure Transaction where
  id : Nat
  user_id : Nat
  amount : ℚ
  description : String
  transaction_type : TxType
  date : TxDate
  category_id : Option Nat
  receipt_filename : Option String
  notes : String
  created_at : Nat
deriving DecidableEq, Repr

/-- A row of the `Category` table. -/
structure Category where
  id : Nat
  user_id : Nat
  name : String
  color : String
deriving DecidableEq, Repr

/-- Sum of the `amount` column over a list of rows (SQL `func.sum` over a
non-empty result set). -/
def sumAmounts (rows : List Transaction) : ℚ :=
  (rows.map Transaction.amount).sum

/-- SQL `func.sum(...).scalar()`: `NULL` (i.e. `none`) on an empty row set,
otherwise the sum. -/
def sqlSumAmount (rows : List Transaction) : Option ℚ :=
  if rows.isEmpty then none else some (sumAmounts rows)

/-- Python `x or 0` applied to an optional SQL scalar. -/
def orZero (x : Option ℚ) : ℚ :=
  match x with
  | none => 0
  | some v => v

/-- Modelled from the spec: `app/models.py` is not under `src/`;
`User.get_balance` is specified as "signed total = sum(amount where
type=income) − sum(amount where type=expense), over all of the user's
transactions (no date bound)", returning 0 for a user with no
transactions. -/
def computeBalance (uid : Nat) (db : List Transaction) : ℚ :=
  let income := sumAmounts (db.filter
    (fun t => t.user_id == uid && t.transaction_type == TxType.income))
  let expenses := sumAmounts (db.filter
    (fun t => t.user_id == uid && t.transaction_type == TxType.expense))
  income - expenses

/-- Row filter of the `monthly_income` query in `dashboard`
(`routes.py:99-103`): owner, type `income`, effective date in (m, y). -/
def monthlyIncomeRow (uid month year : Nat) (t : Transaction) : Bool :=
  t.user_id == uid && t.transaction_type == TxType.income &&
    t.date.month == month && t.date.year == year

/-- Row filter of the `monthly_expenses` query in `dashboard`
(`routes.py:105-109`): owner, type `expense`, effective date in (m, y). -/
def monthlyExpenseRow (uid month year : Nat) (t : Transaction) : Bool :=
  t.user_id == uid && t.transaction_type == TxType.expense &&
    t.date.month == month && t.date.year == year

/-- The pair (`monthly_income`, `monthly_expenses`) computed by `dashboard`
(`routes.py:99-109`): each is `SUM(amount)` over the filtered rows, with
the SQL `NULL` scalar defaulted to 0 by `or 0`. -/
def computeMonthlySummary (uid month year : Nat) (db : List Transaction) :
    ℚ × ℚ :=
  (orZero (sqlSumAmount (db.filter (monthlyIncomeRow uid month year))),
   orZero (sqlSumAmount (db.filter (monthlyExpenseRow uid month year))))

/-- The `category_expenses` query of `dashboard` (`routes.py:112-119`):
inner join of `Category` with `Transaction` on
`Transaction.category_id == Category.id`, filtered to the user's expense
rows of the given month/year.  Each joined row is a (category, transaction)
pair. -/
def joinedExpenseRows (uid month year : Nat) (cats : List Category)
    (db : List Transaction) : List (Category × Transaction) :=
  cats.flatMap (fun c =>
    (db.filter (fun t =>
      t.category_id == some c.id && monthlyExpenseRow uid month year t)).map
      (fun t => (c, t)))

/-- `group_by(Category.name)` with `func.sum(Transaction.amount)`
(`routes.py:112-119`): one (name, sum) pair per distinct category name
appearing among the joined rows. -/
def computeCategoryBreakdown (uid month year : Nat) (cats : List Category)
    (db : List Transaction) : List (String × ℚ) :=
  let rows := joinedExpenseRows uid month year cats db
  let names := (rows.map (fun r => r.1.name)).dedup
  names.map (fun n =>
    (n, ((rows.filter (fun r => r.1.name == n)).map
          (fun r => r.2.amount)).sum))

/-! ## Receipt asset manager (`app/utils.py`) -/

/-- `ALLOWED_EXTENSIONS` (`utils.py:7`). -/
def ALLOWED_EXTENSIONS : List String := ["png", "jpg", "jpeg", "pdf"]

/-- Python `str.lower()` on the ASCII names handled here, character by
character. -/
def strToLower (s : String) : String :=
  String.mk (s.data.map Char.toLower)

/-- Python `filename.rsplit('.', 1)[1]`: the substring after the last
dot (the whole string when there is no dot, matching `'abc'.split('.')[-1]`
as used in `download_receipt`). -/
def extAfterLastDot (s : String) : String :=
  String.mk ((s.data.reverse.takeWhile (fun c => c != '.')).reverse)

/-- `allowed_file` (`utils.py:9-11`): the filename contains a dot and the
lowercased text after the last dot is an allowed extension. -/
def allowed_file (filename : String) : Bool :=
  filename.data.contains '.' &&
    ALLOWED_EXTENSIONS.contains (strToLower (extAfterLastDot filename))

/-- `os.path.splitext` on a path-separator-free name: split before the last
dot, except that a basename consisting of leading dots only has no
extension (`splitext(".png") = (".png", "")`). -/
def splitextData (cs : List Char) : List Char × List Char :=
  let extLen := (cs.reverse.takeWhile (fun c => c != '.')).length
  if extLen == cs.length then (cs, [])
  else
    let stemLen := cs.length - extLen - 1
    if (cs.take stemLen).all (fun c => c == '.') then (cs, [])
    else (cs.take stemLen, cs.drop stemLen)

/-- `os.path.splitext` lifted to `String`. -/
def splitext (s : String) : String × String :=
  let p := splitextData s.data
  (String.mk p.1, String.mk p.2)

/-- Modelled from the spec: `werkzeug.utils.secure_filename` is external
to this repository; the spec says `store` "sanitizes the supplied name
(strip path components, defang unsafe characters)".  Modelled as keeping
only ASCII alphanumerics, dot, dash and underscore (path separators and
unsafe characters are dropped). -/
def secure_filename (s : String) : String :=
  String.mk (s.data.filter (fun c =>
    c.isAlphanum || c == '.' || c == '-' || c == '_'))

/-- Modelled from the spec: `PIL.Image.thumbnail((200, 200), LANCZOS)` is
external to this repository; the spec says the thumbnail step
"resize[s] so neither dimension exceeds 200px (preserving aspect
ratio)", and the operation never enlarges an image already within the
bound.  Modelled with rational aspect preservation rounded down, with a
floor of 1 pixel. -/
def pilThumbnailDims (w h : Nat) : Nat × Nat :=
  if w ≤ 200 && h ≤ 200 then (w, h)
  else if h ≤ w then (200, max 1 (h * 200 / w))
  else (max 1 (w * 200 / h), 200)

/-- A stored file's content: a decodable image with its pixel dimensions,
or opaque bytes (PDFs, and anything `PIL.Image.open` rejects). -/
inductive FileData where
  | image (width height : Nat)
  | blob (bytes : List Nat)
deriving DecidableEq, Repr

/-- An uploaded file as handed to `save_receipt_file` (`file.filename`
plus the bytes `file.save` would write). -/
structure UploadFile where
  filename : String
  content : FileData
deriving DecidableEq, Repr

/-- A filesystem path, as the list of components `os.path.join` joins. -/
abbrev Path := List String

/-- The filesystem: an association list from paths to file contents
(later writes shadow earlier ones; we keep at most one binding). -/
abbrev FS := List (Path × FileData)

/-- Write (create or overwrite) a file. -/
def fsWrite (fs : FS) (p : Path) (d : FileData) : FS :=
  (p, d) :: fs.filter (fun e => e.1 != p)

/-- Read a file's content, `none` when absent. -/
def fsLookup (fs : FS) (p : Path) : Option FileData :=
  (fs.find? (fun e => e.1 == p)).map Prod.snd

/-- `os.path.exists`. -/
def fsExists (fs : FS) (p : Path) : Bool :=
  (fsLookup fs p).isSome

/-- `os.remove`. -/
def fsRemove (fs : FS) (p : Path) : FS :=
  fs.filter (fun e => e.1 != p)

/-- `app.config['UPLOAD_FOLDER']` (`app/__init__.py:21`), taken relative
to the application root. -/
def UPLOAD_FOLDER : String := "static/uploads/receipts"

/-- `os.path.join(UPLOAD_FOLDER, str(user_id), fname)`. -/
def assetPath (user_id : Nat) (fname : String) : Path :=
  [UPLOAD_FOLDER, toString user_id, fname]

/-- `os.path.join(UPLOAD_FOLDER, str(user_id), 'thumbnails', fname)`. -/
def thumbPath (user_id : Nat) (fname : String) : Path :=
  [UPLOAD_FOLDER, toString user_id, "thumbnails", fname]

/-- `f-string` name generation of `save_receipt_file` (`utils.py:18`):
`{user_id}_{uuid4().hex[:8]}{ext}` with the random hex fragment made an
explicit argument. -/
def unique_filename (user_id : Nat) (hex ext : String) : String :=
  toString user_id ++ "_" ++ hex ++ ext

/-- The thumbnail filename derived in `create_thumbnail`
(`utils.py:47-48`): `{name}_thumb{ext}` for `filename = {name}{ext}`. -/
def thumbName (filename : String) : String :=
  (splitext filename).1 ++ "_thumb" ++ (splitext filename).2

/-- `create_thumbnail` (`utils.py:40-56`).  `ioFail` models an arbitrary
exception raised inside the `try` block (decode error, disk error, ...):
the handler logs and returns with the filesystem unchanged.  Opening a
non-image also raises, hence also leaves the filesystem unchanged. -/
def create_thumbnail (ioFail : Bool) (fs : FS) (file_path : Path)
    (user_id : Nat) (filename : String) : FS :=
  if ioFail then fs
  else
    match fsLookup fs file_path with
    | some (FileData.image w h) =>
        let dims := pilThumbnailDims w h
        fsWrite fs (thumbPath user_id (thumbName filename))
          (FileData.image dims.1 dims.2)
    | _ => fs

/-- `save_receipt_file` (`utils.py:13-38`).  Returns the generated
filename (the durable reference) and the updated filesystem; `none` and
an untouched filesystem when the extension is not allowed.  The
`try/except` around `create_thumbnail` swallows any thumbnailing
failure (`ioFail`). -/
def save_receipt_file (file : UploadFile) (user_id : Nat) (hex : String)
    (ioFail : Bool) (fs : FS) : Option String × FS :=
  if allowed_file file.filename then
    let filename := secure_filename file.filename
    let ext := (splitext filename).2
    let uname := unique_filename user_id hex ext
    let file_path := assetPath user_id uname
    let fs1 := fsWrite fs file_path file.content
    let fs2 :=
      if [".png", ".jpg", ".jpeg"].contains (strToLower ext) then
        create_thumbnail ioFail fs1 file_path user_id uname
      else fs1
    (some uname, fs2)
  else (none, fs)

/-! ## Transaction routes (`app/routes.py`) -/

/-- A validated `TransactionForm` (`app/forms.py`) as consumed by the
add/edit routes; `receipt` is `form.receipt.data`. -/
structure TransactionForm where
  amount : ℚ
  description : String
  transaction_type : TxType
  date : TxDate
  category_id : Option Nat
  receipt : Option UploadFile
  notes : String
deriving DecidableEq, Repr

/-- The user-visible outcome of a transaction route. -/
inductive Response where
  | notFound
  | redirectTransactions (msg : String)
  | sendFile (data : FileData) (download_name : String)
deriving DecidableEq, Repr

/-- Result of a mutating route: response, transaction table, filesystem. -/
structure RouteResult where
  response : Response
  db : List Transaction
  fs : FS
deriving DecidableEq, Repr

/-- `Transaction.query.filter_by(id=transaction_id, user_id=current_user.id)
.first()`: the owner-scoped lookup shared by edit/delete/download. -/
def findOwned (uid tid : Nat) (db : List Transaction) : Option Transaction :=
  db.find? (fun t => t.id == tid && t.user_id == uid)

/-- ORM mutation of the single fetched row: replace the first row matching
the lookup predicate. -/
def replaceFirstRow (p : Transaction → Bool) (t' : Transaction) :
    List Transaction → List Transaction
  | [] => []
  | t :: rest =>
      if p t then t' :: rest else t :: replaceFirstRow p t' rest

/-- Python `str(date)`: zero-padded `YYYY-MM-DD`. -/
def pad2 (n : Nat) : String :=
  if n < 10 then "0" ++ toString n else toString n

/-- Python `str(date)` for a calendar date. -/
def dateStr (d : TxDate) : String :=
  toString d.year ++ "-" ++ pad2 d.month ++ "-" ++ pad2 d.day

/-- `edit_transaction` (`routes.py:171-207`) on a validated form.  When a
new receipt is uploaded, the old asset (if any) is removed from the
original path, then the new file is stored; the transaction row is then
updated field by field. -/
def edit_transaction (uid tid : Nat) (form : TransactionForm)
    (hex : String) (ioFail : Bool) (db : List Transaction) (fs : FS) :
    RouteResult :=
  match findOwned uid tid db with
  | none => ⟨Response.notFound, db, fs⟩
  | some t =>
    let saved : Option String × FS :=
      match form.receipt with
      | some file =>
          let fs1 :=
            match t.receipt_filename with
            | some old =>
                let old_file_path := assetPath uid old
                if fsExists fs old_file_path then fsRemove fs old_file_path
                else fs
            | none => fs
          save_receipt_file file uid hex ioFail fs1
      | none => (t.receipt_filename, fs)
    let t' : Transaction :=
      { t with
        amount := form.amount
        description := form.description
        transaction_type := form.transaction_type
        date := form.date
        category_id := form.category_id
        notes := form.notes
        receipt_filename := saved.1 }
    ⟨Response.redirectTransactions "Transaction updated successfully!",
     replaceFirstRow (fun r => r.id == tid && r.user_id == uid) t' db,
     saved.2⟩

/-- `delete_transaction` (`routes.py:209-228`): owner-scoped lookup,
removal of the referenced asset and of the path
`thumbnails/{receipt_filename}` when they exist, then row deletion. -/
def delete_transaction (uid tid : Nat) (db : List Transaction) (fs : FS) :
    RouteResult :=
  match findOwned uid tid db with
  | none => ⟨Response.notFound, db, fs⟩
  | some t =>
    let fs1 :=
      match t.receipt_filename with
      | some fname =>
          let file_path := assetPath uid fname
          let fsA := if fsExists fs file_path then fsRemove fs file_path
                     else fs
          let thumb_path := thumbPath uid fname
          if fsExists fsA thumb_path then fsRemove fsA thumb_path else fsA
      | none => fs
    ⟨Response.redirectTransactions "Transaction deleted successfully!",
     db.eraseP (fun r => r.id == tid && r.user_id == uid),
     fs1⟩

/-- `download_receipt` (`routes.py:230-245`): owner-scoped lookup, then
the stored bytes as an attachment named
`receipt_{description}_{date}.{ext}`, or a flashed redirect when the
transaction has no receipt or the file is missing. -/
def download_receipt (uid tid : Nat) (db : List Transaction) (fs : FS) :
    Response :=
  match findOwned uid tid db with
  | none => Response.notFound
  | some t =>
    match t.receipt_filename with
    | none => Response.redirectTransactions "No receipt found for this transaction."
    | some fname =>
      match fsLookup fs (assetPath uid fname) with
      | none => Response.redirectTransactions "Receipt file not found."
      | some d =>
          Response.sendFile d
            ("receipt_" ++ t.description ++ "_" ++ dateStr t.date ++ "." ++
              extAfterLastDot fname)

/-! ## Auxiliary definitions for statements and witnesses -/

/-- `{t with created_at := c}`: the creation timestamp is the only field
that differs. -/
def setCreatedAt (c : Nat) (t : Transaction) : Transaction :=
  { t with created_at := c }

/-- Sample income row for user 1 (Jan 2024). -/
def c1a : Transaction :=
  { id := 1, user_id := 1, amount := 3000, description := "pay",
    transaction_type := TxType.income, date := ⟨2024, 1, 5⟩,
    category_id := none, receipt_filename := none, notes := "",
    created_at := 100 }

/-- Sample expense row for user 1 (Jan 2024, category 7). -/
def c1b : Transaction :=
  { id := 2, user_id := 1, amount := 450, description := "food",
    transaction_type := TxType.expense, date := ⟨2024, 1, 10⟩,
    category_id := some 7, receipt_filename := none, notes := "",
    created_at := 101 }

/-- Sample expense row for user 1 (Feb 2024, uncategorized). -/
def c1c : Transaction :=
  { id := 3, user_id := 1, amount := 80, description := "bus",
    transaction_type := TxType.expense, date := ⟨2024, 2, 1⟩,
    category_id := none, receipt_filename := none, notes := "",
    created_at := 102 }

/-- Sample category of user 1. -/
def catFood : Category :=
  { id := 7, user_id := 1, name := "Food", color := "#ff6b6b" }

/-- The generated filename `save_receipt_file` computes internally
(`utils.py:16-18`): `unique_filename` applied to the sanitized name's
extension. -/
def savedName (file : UploadFile) (uid : Nat) (hex : String) : String :=
  unique_filename uid hex (splitext (secure_filename file.filename)).2

/-- Sample uploaded image. -/
def upPng : UploadFile := ⟨"r.png", FileData.image 400 300⟩

/-- Sample uploaded PDF. -/
def upPdf : UploadFile := ⟨"r.pdf", FileData.blob [7]⟩

/-- Filesystem after user 1 stores `upPng` with hex fragment
`abcd1234`: original at `1_abcd1234.png`, thumbnail at
`thumbnails/1_abcd1234_thumb.png`. -/
def fsAfterStore : FS :=
  (save_receipt_file upPng 1 "abcd1234" false []).2

/-- Transaction of user 1 referencing the stored receipt
`1_abcd1234.png`. -/
def txC5 : Transaction :=
  { id := 10, user_id := 1, amount := 5, description := "lunch",
    transaction_type := TxType.expense, date := ⟨2024, 1, 10⟩,
    category_id := none, receipt_filename := some "1_abcd1234.png",
    notes := "", created_at := 200 }

/-- Edit form that uploads a replacement receipt image. -/
def formC6 : TransactionForm :=
  { amount := 25, description := "lunch", transaction_type := TxType.expense,
    date := ⟨2024, 1, 10⟩, category_id := none,
    receipt := some ⟨"new.png", FileData.image 100 80⟩, notes := "" }

/-- Edit form that uploads no receipt. -/
def formC10 : TransactionForm :=
  { amount := 30, description := "brunch", transaction_type := TxType.expense,
    date := ⟨2024, 1, 11⟩, category_id := some 7,
    receipt := none, notes := "late" }

/-! ## Helper lemmas -/

/-- `sum.scalar() or 0` agrees with the plain sum (the empty sum is 0). -/
theorem orZero_sqlSumAmount (rows : List Transaction) :
    orZero (sqlSumAmount rows) = sumAmounts rows := by
  cases rows <;> simp [orZero, sqlSumAmount, sumAmounts]

theorem sumAmounts_cons (t : Transaction) (l : List Transaction) :
    sumAmounts (t :: l) = t.amount + sumAmounts l := by
  simp [sumAmounts]

theorem setCreatedAt_amount (c : Nat) (t : Transaction) :
    (setCreatedAt c t).amount = t.amount := rfl

/-- An asset path (3 components) never equals a thumbnail path
(4 components). -/
theorem assetPath_ne_thumbPath (u v : Nat) (f g : String) :
    assetPath u f ≠ thumbPath v g := by
  simp [assetPath, thumbPath]

theorem assetPath_inj (u : Nat) (f g : String) :
    assetPath u f = assetPath u g ↔ f = g := by
  simp [assetPath]

theorem fsLookup_fsWrite_self (fs : FS) (p : Path) (d : FileData) :
    fsLookup (fsWrite fs p d) p = some d := by
  simp [fsLookup, fsWrite, List.find?_cons]

theorem find?_key_filter_ne (fs : FS) (p q : Path) (h : q ≠ p) :
    (fs.filter (fun e => e.1 != p)).find? (fun e => e.1 == q) =
      fs.find? (fun e => e.1 == q) := by
  induction fs with
  | nil => rfl
  | cons e rest ih =>
      by_cases hq : e.1 = q
      · have hp : (e.1 != p) = true := by simp [hq, h]
        simp [List.filter_cons, hp, List.find?_cons, hq, h, ih]
      · by_cases hp : e.1 = p
        · have : (e.1 != p) = false := by simp [hp]
          have hq' : (e.1 == q) = false := by simp [hq]
          simp [List.filter_cons, this, List.find?_cons, hq', ih]
        · have : (e.1 != p) = true := by simp [hp]
          have hq' : (e.1 == q) = false := by simp [hq]
          simp [List.filter_cons, this, List.find?_cons, hq', ih]

theorem fsLookup_fsWrite_ne (fs : FS) (p q : Path) (d : FileData)
    (h : q ≠ p) : fsLookup (fsWrite fs p d) q = fsLookup fs q := by
  have hq : ((p, d).1 == q) = false := by
    simp only [beq_eq_false_iff_ne, ne_eq]
    intro hc
    exact h hc.symm
  simp only [fsLookup, fsWrite, List.find?_cons, hq]
  rw [find?_key_filter_ne fs p q h]

theorem fsLookup_fsRemove_self (fs : FS) (p : Path) :
    fsLookup (fsRemove fs p) p = none := by
  have hnone : List.find? (fun e => e.1 == p)
      (fs.filter (fun e => e.1 != p)) = none := by
    rw [List.find?_eq_none]
    intro e he
    rw [List.mem_filter] at he
    have h2 := he.2
    simp only [bne_iff_ne, ne_eq] at h2
    simp [h2]
  simp [fsLookup, fsRemove, hnone]

theorem fsLookup_fsRemove_ne (fs : FS) (p q : Path) (h : q ≠ p) :
    fsLookup (fsRemove fs p) q = fsLookup fs q := by
  simp only [fsLookup, fsRemove]
  rw [find?_key_filter_ne fs p q h]

theorem fsExists_fsWrite (fs : FS) (p q : Path) (d : FileData)
    (h : fsExists fs q = true) : fsExists (fsWrite fs p d) q = true := by
  by_cases hpq : q = p
  · subst hpq
    simp [fsExists, fsLookup_fsWrite_self]
  · simpa [fsExists, fsLookup_fsWrite_ne fs p q d hpq] using h

/-- `create_thumbnail` touches no path other than the derived thumbnail
path. -/
theorem fsLookup_create_thumbnail_ne (io : Bool) (fs : FS)
    (fp : Path) (u : Nat) (f : String) (q : Path)
    (h : q ≠ thumbPath u (thumbName f)) :
    fsLookup (create_thumbnail io fs fp u f) q = fsLookup fs q := by
  unfold create_thumbnail
  cases io with
  | true => rfl
  | false =>
      cases hfp : fsLookup fs fp with
      | none => rfl
      | some d =>
          cases d with
          | image w ht => exact fsLookup_fsWrite_ne _ _ _ _ h
          | blob b => rfl

/-- `create_thumbnail` never removes an existing file. -/
theorem fsExists_create_thumbnail (io : Bool) (fs : FS) (fp : Path)
    (u : Nat) (f : String) (q : Path) (h : fsExists fs q = true) :
    fsExists (create_thumbnail io fs fp u f) q = true := by
  unfold create_thumbnail
  cases io with
  | true => exact h
  | false =>
      cases hfp : fsLookup fs fp with
      | none => exact h
      | some d =>
          cases d with
          | image w ht => exact fsExists_fsWrite _ _ _ _ h
          | blob b => exact h

/-- Both thumbnail dimensions stay within the 200px bound. -/
theorem pilThumbnailDims_le (w h : Nat) :
    (pilThumbnailDims w h).1 ≤ 200 ∧ (pilThumbnailDims w h).2 ≤ 200 := by
  unfold pilThumbnailDims
  by_cases hsmall : (w ≤ 200 && h ≤ 200) = true
  · rw [if_pos hsmall]
    simp only [Bool.and_eq_true, decide_eq_true_eq] at hsmall
    exact hsmall
  · rw [if_neg hsmall]
    simp only [Bool.and_eq_true, decide_eq_true_eq, not_and_or,
      not_le] at hsmall
    by_cases hwh : h ≤ w
    · rw [if_pos hwh]
      have hw : 0 < w := by
        rcases hsmall with hw' | hh'
        · omega
        · omega
      refine ⟨le_refl 200, ?_⟩
      have h1 : h * 200 ≤ w * 200 := Nat.mul_le_mul_right 200 hwh
      have h2 : h * 200 / w ≤ w * 200 / w := Nat.div_le_div_right h1
      rw [Nat.mul_div_cancel_left 200 hw] at h2
      exact Nat.max_le.2 ⟨by norm_num, h2⟩
    · rw [if_neg hwh]
      push_neg at hwh
      have hh : 0 < h := lt_of_le_of_lt (Nat.zero_le w) hwh
      refine ⟨?_, le_refl 200⟩
      have h1 : w * 200 ≤ h * 200 :=
        Nat.mul_le_mul_right 200 (le_of_lt hwh)
      have h2 : w * 200 / h ≤ h * 200 / h := Nat.div_le_div_right h1
      rw [Nat.mul_div_cancel_left 200 hh] at h2
      exact Nat.max_le.2 ⟨by norm_num, h2⟩

/-- On an allowed filename, `save_receipt_file` returns the generated
filename as the durable reference. -/
theorem save_receipt_file_fst (file : UploadFile) (uid : Nat)
    (hex : String) (io : Bool) (fs : FS)
    (h : allowed_file file.filename = true) :
    (save_receipt_file file uid hex io fs).1 =
      some (savedName file uid hex) := by
  simp [save_receipt_file, h, savedName]

/-- On an allowed filename, the original asset is stored under the
generated name, whatever happens to the thumbnail. -/
theorem save_receipt_file_original (file : UploadFile) (uid : Nat)
    (hex : String) (io : Bool) (fs : FS)
    (h : allowed_file file.filename = true) :
    fsLookup (save_receipt_file file uid hex io fs).2
      (assetPath uid (savedName file uid hex)) = some file.content := by
  simp only [save_receipt_file, h, if_true, savedName]
  split
  · rw [fsLookup_create_thumbnail_ne _ _ _ _ _ _
      (assetPath_ne_thumbPath _ _ _ _)]
    exact fsLookup_fsWrite_self _ _ _
  · exact fsLookup_fsWrite_self _ _ _

/-- `save_receipt_file` touches no path other than the generated asset
path and its derived thumbnail path. -/
theorem save_receipt_file_frame (file : UploadFile) (uid : Nat)
    (hex : String) (io : Bool) (fs : FS) (q : Path)
    (h1 : q ≠ assetPath uid (savedName file uid hex))
    (h2 : q ≠ thumbPath uid (thumbName (savedName file uid hex))) :
    fsLookup (save_receipt_file file uid hex io fs).2 q = fsLookup fs q := by
  simp only [savedName] at h1 h2
  by_cases h : allowed_file file.filename = true
  · simp only [save_receipt_file, h, if_true]
    split
    · rw [fsLookup_create_thumbnail_ne _ _ _ _ _ _ h2]
      exact fsLookup_fsWrite_ne _ _ _ _ h1
    · exact fsLookup_fsWrite_ne _ _ _ _ h1
  · simp only [Bool.not_eq_true] at h
    simp [save_receipt_file, h]

/-- `save_receipt_file` never removes an existing file. -/
theorem fsExists_save_receipt_file (file : UploadFile) (uid : Nat)
    (hex : String) (io : Bool) (fs : FS) (q : Path)
    (h : fsExists fs q = true) :
    fsExists (save_receipt_file file uid hex io fs).2 q = true := by
  by_cases ha : allowed_file file.filename = true
  · simp only [save_receipt_file, ha, if_true]
    split
    · exact fsExists_create_thumbnail _ _ _ _ _ _
        (fsExists_fsWrite _ _ _ _ h)
    · exact fsExists_fsWrite _ _ _ _ h
  · simp only [Bool.not_eq_true] at ha
    simpa [save_receipt_file, ha] using h

/-- On an allowed image extension with decodable image content and no
thumbnailing failure, the thumbnail is written under the derived
`_thumb` name with the bounded dimensions. -/
theorem save_receipt_file_thumbnail (file : UploadFile) (uid : Nat)
    (hex : String) (fs : FS) (w h : Nat)
    (hallow : allowed_file file.filename = true)
    (himg : [".png", ".jpg", ".jpeg"].contains
      (strToLower (splitext (secure_filename file.filename)).2) = true)
    (hcontent : file.content = FileData.image w h) :
    fsLookup (save_receipt_file file uid hex false fs).2
      (thumbPath uid (thumbName (savedName file uid hex))) =
      some (FileData.image (pilThumbnailDims w h).1
        (pilThumbnailDims w h).2) := by
  simp only [save_receipt_file, hallow, if_true, himg, savedName]
  unfold create_thumbnail
  rw [if_neg (by simp)]
  rw [fsLookup_fsWrite_self, hcontent]
  exact fsLookup_fsWrite_self _ _ _

theorem fsExists_fsRemove_ne (fs : FS) (p q : Path) (h : q ≠ p) :
    fsExists (fsRemove fs p) q = fsExists fs q := by
  simp [fsExists, fsLookup_fsRemove_ne fs p q h]

/-- Generated filenames with distinct 8-hex fragments are distinct,
whatever the extensions. -/
theorem unique_filename_hex_inj (uid : Nat) (h1 h2 e1 e2 : String)
    (hl1 : h1.length = 8) (hl2 : h2.length = 8) (hne : h1 ≠ h2) :
    unique_filename uid h1 e1 ≠ unique_filename uid h2 e2 := by
  intro heq
  apply hne
  unfold unique_filename at heq
  have hdata := congrArg String.data heq
  simp only [String.data_append, List.append_assoc] at hdata
  have h3 := List.append_cancel_left hdata
  have h4 := List.append_cancel_left h3
  have h5 : h1.data = h2.data := by
    refine (List.append_inj h4 ?_).1
    show h1.data.length = h2.data.length
    have e1' : h1.data.length = 8 := hl1
    have e2' : h2.data.length = 8 := hl2
    rw [e1', e2']
  cases h1
  cases h2
  exact congrArg String.mk h5

/-! ## C1: total balance -/

/-- C1: for every user, `computeBalance` returns the signed total
sum(amount where type=income) minus sum(amount where type=expense) over
all of that user's transactions with no date restriction; for a user with
no transactions it returns 0, and the result is invariant under the
insertion order of the transactions. -/
theorem computeBalance_correct (uid : Nat) (db : List Transaction) :
    computeBalance uid db =
      sumAmounts (db.filter (fun t =>
        t.user_id == uid && t.transaction_type == TxType.income)) -
      sumAmounts (db.filter (fun t =>
        t.user_id == uid && t.transaction_type == TxType.expense)) ∧
    ((∀ t ∈ db, t.user_id ≠ uid) → computeBalance uid db = 0) ∧
    (∀ db' : List Transaction, db.Perm db' →
      computeBalance uid db = computeBalance uid db') := by
  refine ⟨rfl, ?_, ?_⟩
  · intro h
    have hi : db.filter (fun t =>
        t.user_id == uid && t.transaction_type == TxType.income) = [] := by
      simp only [List.filter_eq_nil_iff]
      intro t ht
      simp [h t ht]
    have he : db.filter (fun t =>
        t.user_id == uid && t.transaction_type == TxType.expense) = [] := by
      simp only [List.filter_eq_nil_iff]
      intro t ht
      simp [h t ht]
    simp [computeBalance, hi, he, sumAmounts]
  · intro db' hperm
    have hsum : ∀ p : Transaction → Bool,
        sumAmounts (db.filter p) = sumAmounts (db'.filter p) := by
      intro p
      exact ((hperm.filter p).map Transaction.amount).sum_eq
    simp only [computeBalance, hsum]

/-- C1 witness: concrete evaluation on a two-transaction set. -/
theorem computeBalance_correct_witness :
    computeBalance 1 [] = 0 ∧
    computeBalance 1 [c1a, c1b] = computeBalance 1 [c1b, c1a] :=
  ⟨(computeBalance_correct 1 []).2.1 (by simp),
   (computeBalance_correct 1 [c1a, c1b]).2.2 [c1b, c1a]
     (List.Perm.swap c1b c1a [])⟩

/-! ## C2: monthly summary -/

/-- C2: `computeMonthlySummary` sums only transactions whose effective
date field (not creation timestamp) has exactly the given month and year,
separately by type; a transaction dated in an adjacent month is never
counted, and when no transactions match the result is (0, 0) rather than
an error. -/
theorem computeMonthlySummary_correct (uid m y : Nat)
    (db : List Transaction) :
    computeMonthlySummary uid m y db =
      (sumAmounts (db.filter (monthlyIncomeRow uid m y)),
       sumAmounts (db.filter (monthlyExpenseRow uid m y))) ∧
    (∀ t : Transaction, t.date.month ≠ m ∨ t.date.year ≠ y →
      computeMonthlySummary uid m y (t :: db) =
        computeMonthlySummary uid m y db) ∧
    ((∀ t ∈ db, ¬(t.user_id = uid ∧ t.date.month = m ∧ t.date.year = y)) →
      computeMonthlySummary uid m y db = (0, 0)) ∧
    (∀ g : Transaction → Nat,
      computeMonthlySummary uid m y (db.map (fun t => setCreatedAt (g t) t)) =
        computeMonthlySummary uid m y db) := by
  refine ⟨?_, ?_, ?_, ?_⟩
  · simp [computeMonthlySummary, orZero_sqlSumAmount]
  · intro t ht
    have hi : monthlyIncomeRow uid m y t = false := by
      rcases ht with h | h <;> simp [monthlyIncomeRow, h]
    have he : monthlyExpenseRow uid m y t = false := by
      rcases ht with h | h <;> simp [monthlyExpenseRow, h]
    simp [computeMonthlySummary, orZero_sqlSumAmount, List.filter_cons, hi, he]
  · intro h
    have hi : db.filter (monthlyIncomeRow uid m y) = [] := by
      simp only [List.filter_eq_nil_iff]
      intro t ht
      have := h t ht
      simp only [monthlyIncomeRow]
      intro hc
      simp only [Bool.and_eq_true, beq_iff_eq] at hc
      exact this ⟨hc.1.1.1, hc.1.2, hc.2⟩
    have he : db.filter (monthlyExpenseRow uid m y) = [] := by
      simp only [List.filter_eq_nil_iff]
      intro t ht
      have := h t ht
      simp only [monthlyExpenseRow]
      intro hc
      simp only [Bool.and_eq_true, beq_iff_eq] at hc
      exact this ⟨hc.1.1.1, hc.1.2, hc.2⟩
    simp [computeMonthlySummary, hi, he, orZero_sqlSumAmount, sumAmounts]
  · intro g
    have key : ∀ p : Transaction → Bool,
        (∀ t c, p (setCreatedAt c t) = p t) →
        sumAmounts ((db.map (fun t => setCreatedAt (g t) t)).filter p) =
          sumAmounts (db.filter p) := by
      intro p hp
      induction db with
      | nil => rfl
      | cons t rest ih =>
          simp only [List.map_cons, List.filter_cons, hp]
          by_cases hpt : p t = true
          · simp [hpt, sumAmounts_cons, ih, setCreatedAt_amount]
          · simp only [Bool.not_eq_true] at hpt
            simp [hpt, ih]
    have h1 := key (monthlyIncomeRow uid m y)
      (by intro t c; simp [monthlyIncomeRow, setCreatedAt])
    have h2 := key (monthlyExpenseRow uid m y)
      (by intro t c; simp [monthlyExpenseRow, setCreatedAt])
    simp [computeMonthlySummary, orZero_sqlSumAmount, h1, h2]

/-- C2 witness: the scenario of §8 of the specification, user 1,
January 2024 and February 2024. -/
theorem computeMonthlySummary_correct_witness :
    computeMonthlySummary 1 1 2024 [c1a, c1b, c1c] = (3000, 450) ∧
    computeMonthlySummary 1 1 2024 (c1c :: [c1a, c1b]) =
      computeMonthlySummary 1 1 2024 [c1a, c1b] ∧
    computeMonthlySummary 1 3 2024 [c1a, c1b, c1c] = (0, 0) ∧
    computeMonthlySummary 1 1 2024
      ([c1a, c1b].map (fun t => setCreatedAt 999 t)) =
      computeMonthlySummary 1 1 2024 [c1a, c1b] := by
  refine ⟨?_, ?_, ?_, ?_⟩
  · have hi : [c1a, c1b, c1c].filter (monthlyIncomeRow 1 1 2024) = [c1a] := rfl
    have he : [c1a, c1b, c1c].filter (monthlyExpenseRow 1 1 2024) = [c1b] := rfl
    simp only [computeMonthlySummary, orZero_sqlSumAmount, hi, he]
    simp [sumAmounts, c1a, c1b]
  · exact (computeMonthlySummary_correct 1 1 2024 [c1a, c1b]).2.1 c1c
      (by left; decide)
  · exact (computeMonthlySummary_correct 1 3 2024 [c1a, c1b, c1c]).2.2.1
      (by decide)
  · exact (computeMonthlySummary_correct 1 1 2024 [c1a, c1b]).2.2.2
      (fun _ => 999)

/-! ## C3: category breakdown -/

/-- C3: `computeCategoryBreakdown` returns one (name, sum) pair per
category name with at least one qualifying expense transaction in the
window, never includes a category with zero qualifying expense
transactions, and never includes a pseudo-entry for transactions whose
category reference is null; those uncategorized amounts are nevertheless
included in `computeMonthlySummary`'s expense total. -/
theorem computeCategoryBreakdown_correct (uid m y : Nat)
    (cats : List Category) (db : List Transaction) :
    (∀ p ∈ computeCategoryBreakdown uid m y cats db,
      ∃ c ∈ cats, c.name = p.1 ∧ ∃ t ∈ db,
        t.category_id = some c.id ∧ monthlyExpenseRow uid m y t = true) ∧
    (∀ c ∈ cats,
      (∃ t ∈ db, t.category_id = some c.id ∧
        monthlyExpenseRow uid m y t = true) →
      c.name ∈ (computeCategoryBreakdown uid m y cats db).map Prod.fst) ∧
    ((computeCategoryBreakdown uid m y cats db).map Prod.fst).Nodup ∧
    (∀ t : Transaction, t.category_id = none →
      computeCategoryBreakdown uid m y cats (t :: db) =
        computeCategoryBreakdown uid m y cats db ∧
      (monthlyExpenseRow uid m y t = true →
        (computeMonthlySummary uid m y (t :: db)).2 =
          t.amount + (computeMonthlySummary uid m y db).2)) := by
  have hnames : (computeCategoryBreakdown uid m y cats db).map Prod.fst =
      ((joinedExpenseRows uid m y cats db).map
        (fun r => r.1.name)).dedup := by
    simp only [computeCategoryBreakdown, List.map_map]
    exact List.map_id _
  have hrow : ∀ r ∈ joinedExpenseRows uid m y cats db,
      r.1 ∈ cats ∧ r.2 ∈ db ∧ r.2.category_id = some r.1.id ∧
        monthlyExpenseRow uid m y r.2 = true := by
    intro r hr
    simp only [joinedExpenseRows, List.mem_flatMap, List.mem_map,
      List.mem_filter, Bool.and_eq_true, beq_iff_eq] at hr
    obtain ⟨c, hc, t, ⟨ht, hcid, hrow⟩, rfl⟩ := hr
    exact ⟨hc, ht, hcid, hrow⟩
  refine ⟨?_, ?_, ?_, ?_⟩
  · intro p hp
    simp only [computeCategoryBreakdown, List.mem_map] at hp
    obtain ⟨n, hn, rfl⟩ := hp
    rw [List.mem_dedup, List.mem_map] at hn
    obtain ⟨r, hr, rfl⟩ := hn
    obtain ⟨hc, ht, hcid, hq⟩ := hrow r hr
    exact ⟨r.1, hc, rfl, r.2, ht, hcid, hq⟩
  · rintro c hc ⟨t, ht, hcid, hq⟩
    rw [hnames, List.mem_dedup, List.mem_map]
    refine ⟨(c, t), ?_, rfl⟩
    simp only [joinedExpenseRows, List.mem_flatMap]
    refine ⟨c, hc, ?_⟩
    simp only [List.mem_map, List.mem_filter, Bool.and_eq_true, beq_iff_eq]
    exact ⟨t, ⟨ht, hcid, hq⟩, rfl⟩
  · rw [hnames]
    exact List.nodup_dedup _
  · intro t hnone
    constructor
    · have hjoin : joinedExpenseRows uid m y cats (t :: db) =
          joinedExpenseRows uid m y cats db := by
        simp only [joinedExpenseRows]
        have hfun : (fun c : Category =>
            ((t :: db).filter (fun r =>
              r.category_id == some c.id &&
                monthlyExpenseRow uid m y r)).map (fun r => (c, r))) =
            (fun c : Category =>
            (db.filter (fun r =>
              r.category_id == some c.id &&
                monthlyExpenseRow uid m y r)).map (fun r => (c, r))) := by
          funext c
          have hf : (t.category_id == some c.id &&
              monthlyExpenseRow uid m y t) = false := by
            simp [hnone]
          simp [List.filter_cons, hf]
        rw [hfun]
      simp only [computeCategoryBreakdown, hjoin]
    · intro hq
      simp only [computeMonthlySummary, orZero_sqlSumAmount,
        List.filter_cons, hq]
      simp [sumAmounts_cons]

/-- C3 witness: user 1, the categorized January expense appears under
"Food"; the uncategorized February expense is absent from the breakdown
but still counted in the February expense total. -/
theorem computeCategoryBreakdown_correct_witness :
    "Food" ∈ (computeCategoryBreakdown 1 1 2024 [catFood]
      [c1a, c1b, c1c]).map Prod.fst ∧
    computeCategoryBreakdown 1 2 2024 [catFood] (c1c :: [c1a, c1b]) =
      computeCategoryBreakdown 1 2 2024 [catFood] [c1a, c1b] ∧
    (computeMonthlySummary 1 2 2024 (c1c :: [c1a, c1b])).2 =
      c1c.amount + (computeMonthlySummary 1 2 2024 [c1a, c1b]).2 := by
  refine ⟨?_, ?_, ?_⟩
  · exact (computeCategoryBreakdown_correct 1 1 2024 [catFood]
      [c1a, c1b, c1c]).2.1 catFood (by simp)
      ⟨c1b, by simp, by decide, by decide⟩
  · exact ((computeCategoryBreakdown_correct 1 2 2024 [catFood]
      [c1a, c1b]).2.2.2 c1c rfl).1
  · exact ((computeCategoryBreakdown_correct 1 2 2024 [catFood]
      [c1a, c1b]).2.2.2 c1c rfl).2 (by decide)

/-! ## C4: stored assets and thumbnails -/

/-- C4 counterexample: storing `r.png` for user 1 succeeds with
generated name `1_abcd1234.png` and does produce a thumbnail, yet
nothing exists at `{uploadRoot}/1/thumbnails/1_abcd1234.png` — the
location the claim asserts; the thumbnail lives at
`{uploadRoot}/1/thumbnails/1_abcd1234_thumb.png` instead. -/
theorem save_receipt_file_thumbnail_not_at_generated_name :
    (save_receipt_file upPng 1 "abcd1234" false []).1 =
      some "1_abcd1234.png" ∧
    fsLookup (save_receipt_file upPng 1 "abcd1234" false []).2
      (thumbPath 1 "1_abcd1234.png") = none ∧
    fsLookup (save_receipt_file upPng 1 "abcd1234" false []).2
      (thumbPath 1 "1_abcd1234_thumb.png") =
      some (FileData.image 200 150) := by
  decide

/-- C4 (amended): storing a file whose extension is png/jpg/jpeg
produces the original asset at `{uploadRoot}/{userId}/{generatedName}`
and a thumbnail at
`{uploadRoot}/{userId}/thumbnails/{stem}_thumb{ext}` (where
`{generatedName} = {stem}{ext}`), with both thumbnail dimensions at most
200px and aspect ratio preserved; storing a pdf produces only the
original. -/
theorem save_receipt_file_assets (file : UploadFile) (uid : Nat)
    (hex : String) (fs : FS) (w h : Nat) :
    (allowed_file file.filename = true →
     [".png", ".jpg", ".jpeg"].contains
       (strToLower (splitext (secure_filename file.filename)).2) = true →
     file.content = FileData.image w h →
     (save_receipt_file file uid hex false fs).1 =
       some (savedName file uid hex) ∧
     fsLookup (save_receipt_file file uid hex false fs).2
       (assetPath uid (savedName file uid hex)) = some file.content ∧
     fsLookup (save_receipt_file file uid hex false fs).2
       (thumbPath uid (thumbName (savedName file uid hex))) =
       some (FileData.image (pilThumbnailDims w h).1
         (pilThumbnailDims w h).2) ∧
     max (pilThumbnailDims w h).1 (pilThumbnailDims w h).2 ≤ 200) ∧
    (allowed_file file.filename = true →
     [".png", ".jpg", ".jpeg"].contains
       (strToLower (splitext (secure_filename file.filename)).2) = false →
     save_receipt_file file uid hex false fs =
       (some (savedName file uid hex),
        fsWrite fs (assetPath uid (savedName file uid hex))
          file.content)) := by
  constructor
  · intro hallow himg hcontent
    refine ⟨save_receipt_file_fst _ _ _ _ _ hallow,
      save_receipt_file_original _ _ _ _ _ hallow,
      save_receipt_file_thumbnail _ _ _ _ _ _ hallow himg hcontent, ?_⟩
    have hb := pilThumbnailDims_le w h
    exact Nat.max_le.2 hb
  · intro hallow himg
    simp only [save_receipt_file, hallow, if_true]
    rw [if_neg (by simpa using himg)]
    simp [savedName]

/-- C4 witness: the png store of the counterexample, and a pdf store
producing exactly the original. -/
theorem save_receipt_file_assets_witness :
    ((save_receipt_file upPng 1 "abcd1234" false []).1 =
       some (savedName upPng 1 "abcd1234") ∧
     fsLookup (save_receipt_file upPng 1 "abcd1234" false []).2
       (assetPath 1 (savedName upPng 1 "abcd1234")) = some upPng.content ∧
     fsLookup (save_receipt_file upPng 1 "abcd1234" false []).2
       (thumbPath 1 (thumbName (savedName upPng 1 "abcd1234"))) =
       some (FileData.image (pilThumbnailDims 400 300).1
         (pilThumbnailDims 400 300).2) ∧
     max (pilThumbnailDims 400 300).1 (pilThumbnailDims 400 300).2 ≤ 200) ∧
    save_receipt_file upPdf 2 "beef0001" false [] =
      (some (savedName upPdf 2 "beef0001"),
       fsWrite [] (assetPath 2 (savedName upPdf 2 "beef0001"))
         upPdf.content) := by
  constructor
  · exact (save_receipt_file_assets upPng 1 "abcd1234" [] 400 300).1
      (by decide) (by decide) rfl
  · exact (save_receipt_file_assets upPdf 2 "beef0001" [] 0 0).2
      (by decide) (by decide)

/-! ## C5: delete-transaction asset cleanup -/

/-- C5: evaluation at the failing input.  User 1 stores `r.png`
(producing asset `1_abcd1234.png` and thumbnail
`thumbnails/1_abcd1234_thumb.png`) and deletes the referencing
transaction.  The original asset is removed and a later download
signals not-found, but the thumbnail the store produced survives:
`delete_transaction` removes `thumbnails/1_abcd1234.png` — a path the
store never wrote — instead of the `_thumb` path, contradicting its own
`Delete thumbnail if exists` comment. -/
theorem delete_transaction_misses_thumbnail :
    fsLookup (delete_transaction 1 10 [txC5] fsAfterStore).fs
      (assetPath 1 "1_abcd1234.png") = none ∧
    fsLookup (delete_transaction 1 10 [txC5] fsAfterStore).fs
      (thumbPath 1 "1_abcd1234_thumb.png") =
      some (FileData.image 200 150) ∧
    download_receipt 1 10 (delete_transaction 1 10 [txC5] fsAfterStore).db
      (delete_transaction 1 10 [txC5] fsAfterStore).fs =
      Response.notFound := by
  decide

/-! ## C6: receipt replacement during edit -/

/-- C6 counterexample: user 1 has stored receipt `1_abcd1234.png` (with
thumbnail `thumbnails/1_abcd1234_thumb.png`) on transaction 10 and edits
it uploading a new image with hex fragment `bbbb2222`.  The old original
asset is deleted and the new reference is distinct, but the old
receipt's thumbnail is still present afterwards — the edit never
deletes it, refuting the claim. -/
theorem edit_transaction_keeps_old_thumbnail :
    fsLookup (edit_transaction 1 10 formC6 "bbbb2222" false [txC5]
      fsAfterStore).fs (thumbPath 1 "1_abcd1234_thumb.png") =
      some (FileData.image 200 150) ∧
    fsLookup (edit_transaction 1 10 formC6 "bbbb2222" false [txC5]
      fsAfterStore).fs (assetPath 1 "1_abcd1234.png") = none := by
  decide

/-- C6 (amended): an edit that uploads a new receipt while the
transaction references a previously generated receipt deletes the old
original asset before storing the replacement and records a new
reference that is distinct from the old one (given distinct 8-hex
fragments), but it does not delete the old thumbnail: no path under the
`thumbnails` directory is ever removed by the edit. -/
theorem edit_transaction_replacement (uid tid : Nat)
    (form : TransactionForm) (file : UploadFile)
    (hex oldhex oldext : String) (io : Bool) (db : List Transaction)
    (fs : FS) (t : Transaction)
    (hform : form.receipt = some file)
    (hfind : findOwned uid tid db = some t)
    (hold : t.receipt_filename = some (unique_filename uid oldhex oldext))
    (hallow : allowed_file file.filename = true)
    (hl1 : oldhex.length = 8) (hl8 : hex.length = 8)
    (hne : oldhex ≠ hex) :
    savedName file uid hex ≠ unique_filename uid oldhex oldext ∧
    fsLookup (edit_transaction uid tid form hex io db fs).fs
      (assetPath uid (unique_filename uid oldhex oldext)) = none ∧
    (∀ g : String, fsExists fs (thumbPath uid g) = true →
      fsExists (edit_transaction uid tid form hex io db fs).fs
        (thumbPath uid g) = true) ∧
    (edit_transaction uid tid form hex io db fs).db =
      replaceFirstRow (fun r => r.id == tid && r.user_id == uid)
        { t with
          amount := form.amount
          description := form.description
          transaction_type := form.transaction_type
          date := form.date
          category_id := form.category_id
          notes := form.notes
          receipt_filename := some (savedName file uid hex) } db := by
  have hdistinct : savedName file uid hex ≠
      unique_filename uid oldhex oldext := by
    unfold savedName
    exact unique_filename_hex_inj uid hex oldhex _ oldext hl8 hl1
      (fun hc => hne hc.symm)
  have hedit : edit_transaction uid tid form hex io db fs =
      ⟨Response.redirectTransactions "Transaction updated successfully!",
       replaceFirstRow (fun r => r.id == tid && r.user_id == uid)
         { t with
           amount := form.amount
           description := form.description
           transaction_type := form.transaction_type
           date := form.date
           category_id := form.category_id
           notes := form.notes
           receipt_filename :=
             (save_receipt_file file uid hex io
               (if fsExists fs
                   (assetPath uid (unique_filename uid oldhex oldext)) then
                  fsRemove fs
                    (assetPath uid (unique_filename uid oldhex oldext))
                else fs)).1 }
         db,
       (save_receipt_file file uid hex io
         (if fsExists fs
             (assetPath uid (unique_filename uid oldhex oldext)) then
            fsRemove fs (assetPath uid (unique_filename uid oldhex oldext))
          else fs)).2⟩ := by
    simp only [edit_transaction, hfind, hform, hold]
  set fs1 := (if fsExists fs
      (assetPath uid (unique_filename uid oldhex oldext)) then
        fsRemove fs (assetPath uid (unique_filename uid oldhex oldext))
      else fs) with hfs1
  have hfs1old : fsLookup fs1
      (assetPath uid (unique_filename uid oldhex oldext)) = none := by
    rw [hfs1]
    by_cases hex' : fsExists fs
        (assetPath uid (unique_filename uid oldhex oldext)) = true
    · rw [if_pos hex']
      exact fsLookup_fsRemove_self _ _
    · simp only [Bool.not_eq_true] at hex'
      rw [if_neg (by simp [hex'])]
      have := hex'
      unfold fsExists at this
      cases hl : fsLookup fs
          (assetPath uid (unique_filename uid oldhex oldext)) with
      | none => rfl
      | some d => rw [hl] at this; simp at this
  refine ⟨hdistinct, ?_, ?_, ?_⟩
  · rw [hedit]
    have h1 : assetPath uid (unique_filename uid oldhex oldext) ≠
        assetPath uid (savedName file uid hex) := by
      rw [Ne, assetPath_inj]
      exact fun hc => hdistinct hc.symm
    have h2 : assetPath uid (unique_filename uid oldhex oldext) ≠
        thumbPath uid (thumbName (savedName file uid hex)) :=
      assetPath_ne_thumbPath _ _ _ _
    calc fsLookup (save_receipt_file file uid hex io fs1).2
          (assetPath uid (unique_filename uid oldhex oldext))
        = fsLookup fs1 (assetPath uid (unique_filename uid oldhex oldext)) :=
          save_receipt_file_frame _ _ _ _ _ _ h1 h2
      _ = none := hfs1old
  · intro g hg
    rw [hedit]
    apply fsExists_save_receipt_file
    rw [hfs1]
    by_cases hex' : fsExists fs
        (assetPath uid (unique_filename uid oldhex oldext)) = true
    · rw [if_pos hex']
      rw [fsExists_fsRemove_ne _ _ _
        (fun hc => assetPath_ne_thumbPath uid uid
          (unique_filename uid oldhex oldext) g hc.symm)]
      exact hg
    · rw [if_neg (by simp [Bool.not_eq_true] at hex'; simp [hex'])]
      exact hg
  · rw [hedit]
    have : (save_receipt_file file uid hex io fs1).1 =
        some (savedName file uid hex) :=
      save_receipt_file_fst _ _ _ _ _ hallow
    rw [hfs1] at this
    simp only [this]

/-- C6 witness: the concrete replacement scenario of the
counterexample. -/
theorem edit_transaction_replacement_witness :
    savedName ⟨"new.png", FileData.image 100 80⟩ 1 "bbbb2222" ≠
      unique_filename 1 "abcd1234" ".png" ∧
    fsLookup (edit_transaction 1 10 formC6 "bbbb2222" false [txC5]
      fsAfterStore).fs (assetPath 1 (unique_filename 1 "abcd1234" ".png")) =
      none ∧
    (∀ g : String,
      fsExists fsAfterStore (thumbPath 1 g) = true →
      fsExists (edit_transaction 1 10 formC6 "bbbb2222" false [txC5]
        fsAfterStore).fs (thumbPath 1 g) = true) ∧
    (edit_transaction 1 10 formC6 "bbbb2222" false [txC5]
      fsAfterStore).db =
      replaceFirstRow (fun r => r.id == 10 && r.user_id == 1)
        { txC5 with
          amount := formC6.amount
          description := formC6.description
          transaction_type := formC6.transaction_type
          date := formC6.date
          category_id := formC6.category_id
          notes := formC6.notes
          receipt_filename :=
            some (savedName ⟨"new.png", FileData.image 100 80⟩ 1
              "bbbb2222") } [txC5] :=
  edit_transaction_replacement 1 10 formC6
    ⟨"new.png", FileData.image 100 80⟩ "bbbb2222" "abcd1234" ".png"
    false [txC5] fsAfterStore txC5 rfl (by decide) (by decide)
    (by decide) (by decide) (by decide) (by decide)

/-! ## C7: disallowed extensions -/

/-- C7: when the filename's extension (the lowercased text after the
last dot, absent when there is no dot) is not among
{png, jpg, jpeg, pdf}, the store returns no reference and performs no
filesystem write at all. -/
theorem save_receipt_file_disallowed (file : UploadFile) (uid : Nat)
    (hex : String) (io : Bool) (fs : FS)
    (h : ¬(file.filename.data.contains '.' = true ∧
      ALLOWED_EXTENSIONS.contains
        (strToLower (extAfterLastDot file.filename)) = true)) :
    save_receipt_file file uid hex io fs = (none, fs) := by
  have hf : allowed_file file.filename = false := by
    unfold allowed_file
    cases hc : file.filename.data.contains '.' with
    | false => simp
    | true =>
        cases ha : ALLOWED_EXTENSIONS.contains
            (strToLower (extAfterLastDot file.filename)) with
        | false => simp
        | true => exact absurd ⟨hc, ha⟩ h
  simp [save_receipt_file, hf]

/-- C7 witness: storing `malware.exe` is a no-op returning no
reference. -/
theorem save_receipt_file_disallowed_witness :
    save_receipt_file ⟨"malware.exe", FileData.blob [1]⟩ 1 "abcd1234"
      false [] = (none, []) :=
  save_receipt_file_disallowed ⟨"malware.exe", FileData.blob [1]⟩ 1
    "abcd1234" false [] (by decide)

/-! ## C8: thumbnail failure is recovered -/

/-- C8: for every store of an allowed file, whatever happens during
thumbnail derivation (`io` quantifies over arbitrary failure), the store
still returns the generated filename and the original asset is
persisted. -/
theorem save_receipt_file_recovers_thumbnail_failure (file : UploadFile)
    (uid : Nat) (hex : String) (io : Bool) (fs : FS)
    (h : allowed_file file.filename = true) :
    (save_receipt_file file uid hex io fs).1 =
      some (savedName file uid hex) ∧
    fsLookup (save_receipt_file file uid hex io fs).2
      (assetPath uid (savedName file uid hex)) = some file.content :=
  ⟨save_receipt_file_fst _ _ _ _ _ h,
   save_receipt_file_original _ _ _ _ _ h⟩

/-- C8 witness: a png store with the thumbnail step failing. -/
theorem save_receipt_file_recovers_thumbnail_failure_witness :
    (save_receipt_file upPng 1 "abcd1234" true []).1 =
      some (savedName upPng 1 "abcd1234") ∧
    fsLookup (save_receipt_file upPng 1 "abcd1234" true []).2
      (assetPath 1 (savedName upPng 1 "abcd1234")) = some upPng.content :=
  save_receipt_file_recovers_thumbnail_failure upPng 1 "abcd1234" true []
    (by decide)

/-! ## C9: owner scoping of edit/delete/download -/

/-- C9: a request for a transaction id that does not exist or is not
owned by the requesting user yields the same user-visible not-found
outcome for edit, delete and download; and inserting another user's
transaction (with any id) changes neither the response nor the
filesystem effect of any of the three operations — existence of another
user's row is unobservable because every query is scoped by owner. -/
theorem routes_owner_scoped (uid tid : Nat) (form : TransactionForm)
    (hex : String) (io : Bool) (db : List Transaction) (fs : FS) :
    ((∀ t ∈ db, ¬(t.id = tid ∧ t.user_id = uid)) →
      edit_transaction uid tid form hex io db fs =
        ⟨Response.notFound, db, fs⟩ ∧
      delete_transaction uid tid db fs = ⟨Response.notFound, db, fs⟩ ∧
      download_receipt uid tid db fs = Response.notFound) ∧
    (∀ t' : Transaction, t'.user_id ≠ uid →
      ((edit_transaction uid tid form hex io (t' :: db) fs).response =
         (edit_transaction uid tid form hex io db fs).response ∧
       (edit_transaction uid tid form hex io (t' :: db) fs).fs =
         (edit_transaction uid tid form hex io db fs).fs) ∧
      ((delete_transaction uid tid (t' :: db) fs).response =
         (delete_transaction uid tid db fs).response ∧
       (delete_transaction uid tid (t' :: db) fs).fs =
         (delete_transaction uid tid db fs).fs) ∧
      download_receipt uid tid (t' :: db) fs =
        download_receipt uid tid db fs) := by
  constructor
  · intro h
    have hfind : findOwned uid tid db = none := by
      unfold findOwned
      rw [List.find?_eq_none]
      intro t ht
      simp only [Bool.and_eq_true, beq_iff_eq]
      intro hc
      exact h t ht ⟨hc.1, hc.2⟩
    exact ⟨by simp [edit_transaction, hfind],
      by simp [delete_transaction, hfind],
      by simp [download_receipt, hfind]⟩
  · intro t' ht'
    have hskip : findOwned uid tid (t' :: db) = findOwned uid tid db := by
      unfold findOwned
      rw [List.find?_cons_of_neg]
      simp [ht']
    refine ⟨⟨?_, ?_⟩, ⟨?_, ?_⟩, ?_⟩ <;>
      cases hf : findOwned uid tid db <;>
        simp [edit_transaction, delete_transaction, download_receipt,
          hskip, hf]

/-- C9 witness: user 2 requesting user 1's transaction 10 gets
not-found from all three routes, and inserting user 1's row changes
nothing user 2 observes. -/
theorem routes_owner_scoped_witness :
    (edit_transaction 2 10 formC10 "cccc3333" false [txC5] [] =
       ⟨Response.notFound, [txC5], []⟩ ∧
     delete_transaction 2 10 [txC5] [] = ⟨Response.notFound, [txC5], []⟩ ∧
     download_receipt 2 10 [txC5] [] = Response.notFound) ∧
    ((edit_transaction 2 10 formC10 "cccc3333" false (txC5 :: []) []).response =
       (edit_transaction 2 10 formC10 "cccc3333" false [] []).response ∧
     (edit_transaction 2 10 formC10 "cccc3333" false (txC5 :: []) []).fs =
       (edit_transaction 2 10 formC10 "cccc3333" false [] []).fs) ∧
    ((delete_transaction 2 10 (txC5 :: []) []).response =
       (delete_transaction 2 10 [] []).response ∧
     (delete_transaction 2 10 (txC5 :: []) []).fs =
       (delete_transaction 2 10 [] []).fs) ∧
    download_receipt 2 10 (txC5 :: []) [] = download_receipt 2 10 [] [] :=
  ⟨(routes_owner_scoped 2 10 formC10 "cccc3333" false [txC5] []).1
     (by decide),
   (routes_owner_scoped 2 10 formC10 "cccc3333" false [] []).2 txC5
     (by decide)⟩

/-! ## C10: receipt-preserving edit -/

/-- C10: an edit that uploads no new receipt leaves the filesystem
untouched and keeps the transaction's `receipt_filename` unchanged while
updating amount, description, type, date, category and notes from the
form. -/
theorem edit_transaction_no_receipt_frame (uid tid : Nat)
    (form : TransactionForm) (hex : String) (io : Bool)
    (db : List Transaction) (fs : FS) (t : Transaction)
    (hform : form.receipt = none)
    (hfind : findOwned uid tid db = some t) :
    edit_transaction uid tid form hex io db fs =
      ⟨Response.redirectTransactions "Transaction updated successfully!",
       replaceFirstRow (fun r => r.id == tid && r.user_id == uid)
         { t with
           amount := form.amount
           description := form.description
           transaction_type := form.transaction_type
           date := form.date
           category_id := form.category_id
           notes := form.notes
           receipt_filename := t.receipt_filename } db,
       fs⟩ := by
  simp only [edit_transaction, hfind, hform]

/-- C10 witness: editing transaction 10 with no upload keeps the stored
receipt reference and the filesystem intact. -/
theorem edit_transaction_no_receipt_frame_witness :
    edit_transaction 1 10 formC10 "dddd4444" false [txC5] fsAfterStore =
      ⟨Response.redirectTransactions "Transaction updated successfully!",
       replaceFirstRow (fun r => r.id == 10 && r.user_id == 1)
         { txC5 with
           amount := formC10.amount
           description := formC10.description
           transaction_type := formC10.transaction_type
           date := formC10.date
           category_id := formC10.category_id
           notes := formC10.notes
           receipt_filename := txC5.receipt_filename } [txC5],
       fsAfterStore⟩ :=
  edit_transaction_no_receipt_frame 1 10 formC10 "dddd4444" false [txC5]
    fsAfterStore txC5 rfl (by decide)

end FinanceTracker
